import Mathlib

/-!
Shallow embedding of `src/load-generator/tcp-tester/src/bin/tcp-tester/client.rs`
from the network-flow-monitor-agent repository, together with a model of the
Socket Key codec of the external `tcp_tester_common` crate (modelled from the
spec, since that crate is not part of the sources).

The embedding translates the Rust functions `get_config_from_file`,
`setup_ebpf`, `get_attach_mode`, `run_client`, `send_random_data` and
`start_client_at_rate` into Lean: every fallible operation (`unwrap` on a
`Result` or `Option`, integer division) is driven by an explicit environment
of booleans saying which underlying operation succeeds, and each function
returns the list of externally visible events it performed, paired with a
flag saying whether it panicked.
-/

namespace TcpTester

/-! ## Socket Key codec (external crate, modelled from the spec) -/

/-- One endpoint of a TCP connection: an address and a port, abstracted as
naturals. -/
structure Endpoint where
  addr : Nat
  port : Nat
deriving DecidableEq, Repr

/-- Lexicographic order on endpoints, used as the canonical ordering rule. -/
def Endpoint.le (a b : Endpoint) : Prop :=
  a.addr < b.addr ∨ (a.addr = b.addr ∧ a.port ≤ b.port)

instance (a b : Endpoint) : Decidable (Endpoint.le a b) := by
  unfold Endpoint.le
  infer_instance

/-- A socket key: the normalized pair of endpoints of one flow. -/
structure SocketKey where
  ep1 : Endpoint
  ep2 : Endpoint
deriving DecidableEq, Repr

/-- Modelled from the spec: the Socket Key codec lives in the external
`tcp_tester_common` crate, which is not among the sources; the spec prescribes
a canonical ordering rule (sort the two endpoint tuples lexicographically,
independent of which side is the source of a given packet). -/
def canonicalKey (x y : Endpoint) : SocketKey :=
  if Endpoint.le x y then ⟨x, y⟩ else ⟨y, x⟩

/-- Modelled from the spec: key derivation from the user-space socket's
local/remote view. -/
def from_socket_view (local_addr local_port remote_addr remote_port : Nat) :
    SocketKey :=
  canonicalKey ⟨local_addr, local_port⟩ ⟨remote_addr, remote_port⟩

/-- Direction of a packet on the wire relative to the connection. -/
inductive Direction where
  | egress
  | ingress
deriving DecidableEq, Repr

/-- Modelled from the spec: key derivation from the packet-path program's wire
view (source/destination of one packet, plus the traffic direction); the
canonical ordering makes the direction immaterial. -/
def from_packet_view (src_addr src_port dst_addr dst_port : Nat)
    (_d : Direction) : SocketKey :=
  canonicalKey ⟨src_addr, src_port⟩ ⟨dst_addr, dst_port⟩

/-! ## Kernel version and cgroup attach mode (`get_attach_mode`) -/

/-- A kernel version, as in aya's `KernelVersion`: three numeric components
compared lexicographically. -/
structure KernelVersion where
  major : Nat
  minor : Nat
  patch : Nat
deriving DecidableEq, Repr

/-- Strict lexicographic order on kernel versions (aya's derived `Ord`). -/
def KernelVersion.lt (a b : KernelVersion) : Prop :=
  a.major < b.major ∨
    (a.major = b.major ∧
      (a.minor < b.minor ∨ (a.minor = b.minor ∧ a.patch < b.patch)))

instance (a b : KernelVersion) : Decidable (KernelVersion.lt a b) := by
  unfold KernelVersion.lt
  infer_instance

/-- Comparison `a >= b` on kernel versions, as the negation of the strict
order. -/
def KernelVersion.ge (a b : KernelVersion) : Prop := ¬ KernelVersion.lt a b

instance (a b : KernelVersion) : Decidable (KernelVersion.ge a b) := by
  unfold KernelVersion.ge
  infer_instance

/-- The cgroup attach mode passed to the sockops attach call. -/
inductive CgroupAttachMode where
  | Single
  | AllowMultiple
deriving DecidableEq, Repr

/-- Embedding of `get_attach_mode`: `Single` when the running kernel is at or
above 5.7.0, `AllowMultiple` below. The running kernel version is passed as a
parameter (the Rust code reads it via aya). -/
def get_attach_mode (current : KernelVersion) : CgroupAttachMode :=
  if KernelVersion.ge current ⟨5, 7, 0⟩ then
    CgroupAttachMode.Single
  else
    CgroupAttachMode.AllowMultiple

/-! ## Events and the environment of fallible operations -/

/-- Attachment point of the traffic-control program on an interface. -/
inductive TcAttachType where
  | Egress
  | Ingress
deriving DecidableEq, Repr

/-- Externally visible events performed by the client code. -/
inductive Event where
  | getNamespace (name : String)
  | loadArtifacts
  | qdiscAddClsact (iface : String) (preexisting : Bool)
  | loadTc
  | attachTc (iface : String) (ty : TcAttachType)
  | loadSockops
  | attachSockops (cgroup : String) (mode : CgroupAttachMode)
  | getMap
  | readConfig (path : String)
  | connectAttempt
  | logConnectError
  | sendData
  | shutdownStream
deriving DecidableEq, Repr

/-- Which underlying operations succeed during one lifecycle, plus the running
kernel version. Each flag drives one `unwrap` (or `Result` value) in the Rust
code; `qdiscI2Preexisting` and `qdiscI3Preexisting` record whether the clsact
qdisc already existed (the Rust code discards that result). -/
structure Env where
  clientNsOk : Bool
  testerNsOk : Bool
  loadArtifactsOk : Bool
  qdiscI2Preexisting : Bool
  qdiscI3Preexisting : Bool
  tcLoadOk : Bool
  tcAttachEgressOk : Bool
  tcAttachIngressOk : Bool
  sockopsLoadOk : Bool
  cgroupOpenOk : Bool
  sockopsAttachOk : Bool
  mapOk : Bool
  configOk : Bool
  connectOk : Bool
  shutdownOk : Bool
  kernel : KernelVersion
deriving DecidableEq, Repr

/-- The static `CLIENT_NAMESPACE` of the Rust source. -/
def CLIENT_NAMESPACE : String := "nfm-perf-test-client"

/-- The static `TCP_TESTER_NAMESPACE` of the Rust source. -/
def TCP_TESTER_NAMESPACE : String := "nfm-perf-test-tcp-tester"

/-- Name of the egress-side interface in the middlebox namespace. -/
def IFACE_I2 : String := "i2"

/-- Name of the ingress-side interface in the middlebox namespace. -/
def IFACE_I3 : String := "i3"

/-! ## `setup_ebpf` -/

/-- Embedding of `setup_ebpf`: returns the trace of events it performed and
whether it panicked (an `unwrap` of a failed operation). Step order follows
the Rust source: load the program artifacts; inside the middlebox namespace
add the clsact qdiscs on interfaces i2 and i3 (results discarded), load the
traffic-control program, attach it at egress on i2 and at ingress on i3; then
load the sockops program and attach it to the cgroup with the mode chosen by
`get_attach_mode`. -/
def setup_ebpf (env : Env) (cgroup_path : String) : List Event × Bool :=
  if !env.loadArtifactsOk then
    ([Event.loadArtifacts], true)
  else if !env.testerNsOk then
    ([Event.loadArtifacts, Event.getNamespace TCP_TESTER_NAMESPACE], true)
  else
    let t := [Event.loadArtifacts, Event.getNamespace TCP_TESTER_NAMESPACE,
      Event.qdiscAddClsact IFACE_I2 env.qdiscI2Preexisting,
      Event.qdiscAddClsact IFACE_I3 env.qdiscI3Preexisting,
      Event.loadTc]
    if !env.tcLoadOk then (t, true)
    else
      let t := t ++ [Event.attachTc IFACE_I2 TcAttachType.Egress]
      if !env.tcAttachEgressOk then (t, true)
      else
        let t := t ++ [Event.attachTc IFACE_I3 TcAttachType.Ingress]
        if !env.tcAttachIngressOk then (t, true)
        else
          let t := t ++ [Event.loadSockops]
          if !env.sockopsLoadOk then (t, true)
          else if !env.cgroupOpenOk then (t, true)
          else
            let t := t ++
              [Event.attachSockops cgroup_path (get_attach_mode env.kernel)]
            if !env.sockopsAttachOk then (t, true) else (t, false)

/-- All operations `setup_ebpf` unwraps succeed. -/
def Env.setupOk (env : Env) : Bool :=
  env.loadArtifactsOk && env.testerNsOk && env.tcLoadOk &&
    env.tcAttachEgressOk && env.tcAttachIngressOk && env.sockopsLoadOk &&
    env.cgroupOpenOk && env.sockopsAttachOk

/-- The trace of a fully successful `setup_ebpf` run. -/
def setupTrace (env : Env) (cgroup_path : String) : List Event :=
  [Event.loadArtifacts, Event.getNamespace TCP_TESTER_NAMESPACE,
   Event.qdiscAddClsact IFACE_I2 env.qdiscI2Preexisting,
   Event.qdiscAddClsact IFACE_I3 env.qdiscI3Preexisting,
   Event.loadTc,
   Event.attachTc IFACE_I2 TcAttachType.Egress,
   Event.attachTc IFACE_I3 TcAttachType.Ingress,
   Event.loadSockops,
   Event.attachSockops cgroup_path (get_attach_mode env.kernel)]

/-! ## `get_config_from_file` -/

/-- Embedding of `get_config_from_file`: opens, reads and parses the flow
configuration file, panicking (unwrap) when the file is unreadable or its
contents malformed. -/
def get_config_from_file (env : Env) (path : String) : List Event × Bool :=
  ([Event.readConfig path], !env.configOk)

/-! ## `send_random_data` -/

/-- Value in the half-open interval from `lo` to `hi` selected by the random
draw `x` (the concrete pseudo-random algorithm of the `rand` crate is
irrelevant; only the guaranteed range matters). -/
def random_range (lo hi x : Nat) : Nat := lo + x % (hi - lo)

/-- One iteration of the send loop of `send_random_data`: the number of bytes
written to the stream, the drawn length `len` (the freshly randomized byte
count at the start of the buffer, also the response-read length), and the
pacing delay in milliseconds. -/
structure PacketSend where
  written : Nat
  len : Nat
  delay_ms : Nat
deriving DecidableEq, Repr

/-- Size of the `data` buffer of `send_random_data` (`[0; 2048]`). -/
def DATA_LEN : Nat := 2048

/-- Embedding of `send_random_data`, parameterized by the random draws: the
packet count is drawn from `50..150`; each iteration draws `len` from
`200..2048`, randomizes `data[..len]`, writes the whole 2048-byte `data`
buffer with `write_all`, reads a `len`-byte response (errors only logged) and
sleeps 10 ms. -/
def send_random_data (rngPackets : Nat) (rngLen : Nat → Nat) :
    List PacketSend :=
  let packets := random_range 50 150 rngPackets
  (List.range packets).map (fun i =>
    { written := DATA_LEN, len := random_range 200 2048 (rngLen i),
      delay_ms := 10 })

/-! ## `run_client` -/

/-- The tail of `run_client` after the connect attempt: on `Ok`, optionally
send data and then shut the stream down (an `unwrap`); on `Err`, log the
error and return normally. -/
def handle_stream_result (env : Env) (send_data : Bool) (t : List Event) :
    List Event × Bool :=
  if !env.connectOk then (t ++ [Event.logConnectError], false)
  else
    let t := if send_data then t ++ [Event.sendData] else t
    if !env.shutdownOk then (t, true)
    else (t ++ [Event.shutdownStream], false)

/-- Embedding of `run_client`: look up the client namespace; when traffic
shaping is enabled, run `setup_ebpf`, open the shared map, read the flow
configuration from its file and connect through the socket builder; otherwise
connect directly. The connect result is a `Result` value handled by the match
at the end (`handle_stream_result`). -/
def run_client (env : Env) (enable_traffic_shaping send_data : Bool)
    (cgroup_path config_file_path : String) : List Event × Bool :=
  if !env.clientNsOk then ([Event.getNamespace CLIENT_NAMESPACE], true)
  else
    let t0 := [Event.getNamespace CLIENT_NAMESPACE]
    if enable_traffic_shaping then
      let s := setup_ebpf env cgroup_path
      if s.2 then (t0 ++ s.1, true)
      else
        let t := t0 ++ s.1
        if !env.mapOk then (t ++ [Event.getMap], true)
        else
          let t := t ++ [Event.getMap]
          let c := get_config_from_file env config_file_path
          if c.2 then (t ++ c.1, true)
          else
            handle_stream_result env send_data
              (t ++ c.1 ++ [Event.connectAttempt])
    else
      handle_stream_result env send_data (t0 ++ [Event.connectAttempt])

/-- All operations of a traffic-shaping lifecycle before its connect attempt
succeed. -/
def Env.prefixOk (env : Env) : Bool :=
  env.clientNsOk && env.setupOk && env.mapOk && env.configOk

/-- The events of one traffic-shaping lifecycle up to (and excluding) its
connect attempt, when everything before the connect succeeds. -/
def preConnectEvents (env : Env) (cgroup_path config_file_path : String) :
    List Event :=
  Event.getNamespace CLIENT_NAMESPACE :: setupTrace env cgroup_path ++
    [Event.getMap, Event.readConfig config_file_path]

/-! ## `start_client_at_rate` -/

/-- Loop state of the generator: the milestone counter `num_spawned`, the
total number of lifecycles spawned, and the number of milestones reported. -/
structure GenState where
  num_spawned : Nat
  spawned : Nat
  milestones : Nat
deriving DecidableEq, Repr

/-- One loop iteration of `start_client_at_rate`: spawn one `run_client` task
(fire-and-forget; its outcome is never consulted by the loop), increment
`num_spawned`, and when it reaches `rate` report a milestone and reset it to
zero, then await the next tick. -/
def gen_step (rate : Nat) (s : GenState) : GenState :=
  if s.num_spawned + 1 = rate then
    { num_spawned := 0, spawned := s.spawned + 1,
      milestones := s.milestones + 1 }
  else
    { num_spawned := s.num_spawned + 1, spawned := s.spawned + 1,
      milestones := s.milestones }

/-- The generator's loop state after a given number of iterations. -/
def gen_run (rate : Nat) : Nat → GenState
  | 0 => { num_spawned := 0, spawned := 0, milestones := 0 }
  | n + 1 => gen_step rate (gen_run rate n)

/-- Result of observing `start_client_at_rate` for some number of loop
iterations: either the immediate panic from computing `1_000_000 / rate` with
`rate = 0` (nothing is ever spawned), or normal operation with the computed
`micros_per_txn` interval and the loop state. -/
inductive GenResult where
  | divPanic
  | running (micros_per_txn : Nat) (s : GenState)
deriving DecidableEq, Repr

/-- Embedding of `start_client_at_rate`, observed for `n` loop iterations: it
first computes `micros_per_txn = 1_000_000 / rate` (Rust u32 division, which
panics on a zero divisor), then loops forever spawning one lifecycle per
tick. -/
def start_client_at_rate (rate n : Nat) : GenResult :=
  if rate = 0 then GenResult.divPanic
  else GenResult.running (1000000 / rate) (gen_run rate n)

/-- Number of lifecycles a generator run spawned. -/
def GenResult.spawnCount : GenResult → Nat
  | GenResult.divPanic => 0
  | GenResult.running _ s => s.spawned

/-- The concatenated lifecycle traces of a run that spawned `n` `run_client`
tasks, the i-th task running in environment `envs i`; the tasks are
independent (`tokio::spawn`), so the run trace is their concatenation. -/
def run_traces (envs : Nat → Env) (shaping send_data : Bool)
    (cgroup_path config_file_path : String) : Nat → List Event
  | 0 => []
  | n + 1 =>
    run_traces envs shaping send_data cgroup_path config_file_path n ++
      (run_client (envs n) shaping send_data cgroup_path config_file_path).1

/-- Whether an event is a load of the eBPF program artifacts. -/
def Event.isLoadArtifacts : Event → Bool
  | Event.loadArtifacts => true
  | _ => false

/-- Number of artifact-load events in a trace. -/
def countLoads (t : List Event) : Nat := t.countP Event.isLoadArtifacts

/-! ## Concrete environments used by witnesses and counterexamples -/

/-- An environment in which every operation succeeds; the clsact qdisc on i2
already exists (exercising idempotence) while the one on i3 does not. -/
def allOkEnv : Env :=
  { clientNsOk := true, testerNsOk := true, loadArtifactsOk := true,
    qdiscI2Preexisting := true, qdiscI3Preexisting := false, tcLoadOk := true,
    tcAttachEgressOk := true, tcAttachIngressOk := true, sockopsLoadOk := true,
    cgroupOpenOk := true, sockopsAttachOk := true, mapOk := true,
    configOk := true, connectOk := true, shutdownOk := true,
    kernel := { major := 6, minor := 1, patch := 0 } }

/-- Like `allOkEnv` but the connect attempt fails. -/
def connectFailEnv : Env := { allOkEnv with connectOk := false }

/-- Like `allOkEnv` but the flow-configuration file is malformed. -/
def badConfigEnv : Env := { allOkEnv with configOk := false }

/-- A concrete cgroup path used in witnesses. -/
def testCgroupPath : String := "/sys/fs/cgroup/perf-test"

/-- A concrete flow-configuration path used in witnesses. -/
def testConfigPath : String := "flow-config.json"

end TcpTester

open TcpTester

/-! ## Helper lemmas -/

theorem canonicalKey_comm (x y : Endpoint) :
    canonicalKey x y = canonicalKey y x := by
  rcases x with ⟨xa, xp⟩
  rcases y with ⟨ya, yp⟩
  unfold canonicalKey Endpoint.le
  split_ifs with h1 h2 h2 <;>
    simp_all [SocketKey.mk.injEq, Endpoint.mk.injEq] <;> omega

theorem setup_ebpf_ok_trace (env : Env) (cgroup_path : String)
    (h : env.setupOk = true) :
    setup_ebpf env cgroup_path = (setupTrace env cgroup_path, false) := by
  unfold Env.setupOk at h
  simp only [Bool.and_eq_true] at h
  obtain ⟨⟨⟨⟨⟨⟨⟨h1, h2⟩, h3⟩, h4⟩, h5⟩, h6⟩, h7⟩, h8⟩ := h
  simp [setup_ebpf, setupTrace, h1, h2, h3, h4, h5, h6, h7, h8]

theorem handle_stream_err_trace (env : Env) (send_data : Bool)
    (t : List Event) (h : env.connectOk = false) :
    handle_stream_result env send_data t =
      (t ++ [Event.logConnectError], false) := by
  simp [handle_stream_result, h]

theorem handle_stream_ok_trace (env : Env) (t : List Event)
    (hc : env.connectOk = true) (hs : env.shutdownOk = true) :
    handle_stream_result env true t =
      (t ++ [Event.sendData, Event.shutdownStream], false) := by
  simp [handle_stream_result, hc, hs]

theorem handle_stream_result_trace (env : Env) (send_data : Bool)
    (t : List Event) :
    ∃ post, (handle_stream_result env send_data t).1 = t ++ post ∧
      countLoads post = 0 := by
  unfold handle_stream_result
  by_cases hc : env.connectOk = true
  · by_cases hd : send_data = true
    · by_cases hs : env.shutdownOk = true
      · exact ⟨[Event.sendData, Event.shutdownStream],
          by simp [hc, hd, hs], by decide⟩
      · simp only [Bool.not_eq_true] at hs
        exact ⟨[Event.sendData], by simp [hc, hd, hs], by decide⟩
    · simp only [Bool.not_eq_true] at hd
      by_cases hs : env.shutdownOk = true
      · exact ⟨[Event.shutdownStream], by simp [hc, hd, hs], by decide⟩
      · simp only [Bool.not_eq_true] at hs
        exact ⟨[], by simp [hc, hd, hs], by decide⟩
  · simp only [Bool.not_eq_true] at hc
    exact ⟨[Event.logConnectError], by simp [hc], by decide⟩

theorem run_client_shaping_eq (env : Env) (send_data : Bool)
    (cg cfg : String) (h : env.prefixOk = true) :
    run_client env true send_data cg cfg =
      handle_stream_result env send_data
        (preConnectEvents env cg cfg ++ [Event.connectAttempt]) := by
  unfold Env.prefixOk at h
  simp only [Bool.and_eq_true] at h
  obtain ⟨⟨⟨hns, hsetup⟩, hmap⟩, hcfg⟩ := h
  simp [run_client, setup_ebpf_ok_trace env cg hsetup, get_config_from_file,
    hns, hmap, hcfg, preConnectEvents]

theorem run_client_plain_eq (env : Env) (send_data : Bool) (cg cfg : String)
    (h : env.clientNsOk = true) :
    run_client env false send_data cg cfg =
      handle_stream_result env send_data
        [Event.getNamespace CLIENT_NAMESPACE, Event.connectAttempt] := by
  simp [run_client, h]

theorem getLast_append_pair {α : Type} (t : List α) (a b : α) :
    (t ++ [a, b]).getLast? = some b := by
  rw [show t ++ [a, b] = (t ++ [a]) ++ [b] by simp]
  exact List.getLast?_concat _

theorem gen_run_spawned (rate n : Nat) : (gen_run rate n).spawned = n := by
  induction n with
  | zero => rfl
  | succ n ih =>
    show (gen_step rate (gen_run rate n)).spawned = n + 1
    unfold gen_step
    split <;> simp [ih]

theorem gen_run_closed (rate : Nat) (h : 0 < rate) (n : Nat) :
    gen_run rate n =
      { num_spawned := n % rate, spawned := n, milestones := n / rate } := by
  induction n with
  | zero => simp [gen_run, Nat.zero_mod, Nat.zero_div]
  | succ n ih =>
    show gen_step rate (gen_run rate n) = _
    rw [ih]
    by_cases hc : n % rate + 1 = rate
    · have e1 : n + 1 = rate * (n / rate + 1) := by
        have hd := Nat.div_add_mod n rate
        calc n + 1 = rate * (n / rate) + n % rate + 1 := by rw [hd]
          _ = rate * (n / rate) + (n % rate + 1) := by rw [Nat.add_assoc]
          _ = rate * (n / rate) + rate := by rw [hc]
          _ = rate * (n / rate + 1) := by rw [Nat.mul_succ]
      have hmod : (n + 1) % rate = 0 := by
        rw [e1]
        exact Nat.mul_mod_right _ _
      have hdiv : (n + 1) / rate = n / rate + 1 := by
        rw [e1]
        exact Nat.mul_div_cancel_left _ h
      simp [gen_step, hc, hmod, hdiv]
    · have hr : n % rate < rate := Nat.mod_lt _ h
      have hlt : n % rate + 1 < rate := by omega
      have he : n % rate + 1 + rate * (n / rate) = n + 1 := by
        have hd := Nat.div_add_mod n rate
        rw [Nat.add_comm (n % rate + 1) (rate * (n / rate)), ← Nat.add_assoc,
          hd]
      have hu := (Nat.div_mod_unique h).mpr ⟨he, hlt⟩
      simp [gen_step, hc, hu.1, hu.2]

theorem countLoads_append (a b : List Event) :
    countLoads (a ++ b) = countLoads a + countLoads b := by
  simp [countLoads, List.countP_append]

theorem countLoads_preConnect (env : Env) (cg cfg : String) :
    countLoads (preConnectEvents env cg cfg) = 1 := by
  simp [preConnectEvents, setupTrace, countLoads, List.countP_cons,
    Event.isLoadArtifacts]

/-! ## Claims -/

/-- C1: for every endpoint pair (A, B) of one TCP connection, the key computed
by `from_socket_view` from either side's local/remote view equals the key
computed by `from_packet_view` from the wire view of packets between A and B,
in both traffic directions. -/
theorem socket_key_symmetry (a b : Endpoint) (d : Direction) :
    from_packet_view a.addr a.port b.addr b.port d =
      from_socket_view a.addr a.port b.addr b.port ∧
    from_packet_view b.addr b.port a.addr a.port d =
      from_socket_view a.addr a.port b.addr b.port ∧
    from_socket_view b.addr b.port a.addr a.port =
      from_socket_view a.addr a.port b.addr b.port := by
  unfold from_packet_view from_socket_view
  refine ⟨rfl, ?_, ?_⟩ <;>
    exact canonicalKey_comm ⟨b.addr, b.port⟩ ⟨a.addr, a.port⟩

/-- C3: the control plane selects `AllowMultiple` exactly for kernel versions
strictly below 5.7.0 and `Single` exactly for versions at or above 5.7.0. -/
theorem attach_mode_selection (v : KernelVersion) :
    (get_attach_mode v = CgroupAttachMode.AllowMultiple ↔
      KernelVersion.lt v ⟨5, 7, 0⟩) ∧
    (get_attach_mode v = CgroupAttachMode.Single ↔
      KernelVersion.ge v ⟨5, 7, 0⟩) := by
  unfold get_attach_mode KernelVersion.ge
  split_ifs with h <;> simp_all [KernelVersion.ge]

/-- C4: when every unwrapped operation succeeds, `setup_ebpf` performs exactly
this sequence: load the artifacts; then, inside the middlebox namespace, add
the two clsact hook points on i2 and i3 (whether or not they already exist —
the result is discarded, so a pre-existing hook point is not an error), load
the traffic-control program and attach it at egress on i2 and at ingress on
i3; then load the sockops program and attach it to the given cgroup. -/
theorem setup_ebpf_order (env : Env) (cgroup_path : String)
    (h : env.setupOk = true) :
    setup_ebpf env cgroup_path =
      ([Event.loadArtifacts, Event.getNamespace TCP_TESTER_NAMESPACE,
        Event.qdiscAddClsact IFACE_I2 env.qdiscI2Preexisting,
        Event.qdiscAddClsact IFACE_I3 env.qdiscI3Preexisting,
        Event.loadTc,
        Event.attachTc IFACE_I2 TcAttachType.Egress,
        Event.attachTc IFACE_I3 TcAttachType.Ingress,
        Event.loadSockops,
        Event.attachSockops cgroup_path (get_attach_mode env.kernel)],
       false) := by
  rw [setup_ebpf_ok_trace env cgroup_path h]
  rfl

/-- Witness for C4 at a concrete environment (qdisc on i2 pre-existing). -/
theorem setup_ebpf_order_witness :
    allOkEnv.setupOk = true ∧
    setup_ebpf allOkEnv testCgroupPath =
      ([Event.loadArtifacts, Event.getNamespace TCP_TESTER_NAMESPACE,
        Event.qdiscAddClsact IFACE_I2 true,
        Event.qdiscAddClsact IFACE_I3 false,
        Event.loadTc,
        Event.attachTc IFACE_I2 TcAttachType.Egress,
        Event.attachTc IFACE_I3 TcAttachType.Ingress,
        Event.loadSockops,
        Event.attachSockops testCgroupPath CgroupAttachMode.Single],
       false) :=
  ⟨by decide, setup_ebpf_order allOkEnv testCgroupPath (by decide)⟩

/-- C2 counterexample: in a run of two traffic-shaping lifecycles, with every
kernel operation succeeding, the program artifacts are loaded twice — once
per lifecycle — refuting that the interception programs are loaded and
attached at most once per process. -/
theorem ebpf_load_per_process_counterexample :
    countLoads (run_traces (fun _ => allOkEnv) true false testCgroupPath
      testConfigPath 2) = 2 ∧
    ¬ countLoads (run_traces (fun _ => allOkEnv) true false testCgroupPath
      testConfigPath 2) ≤ 1 := by
  decide

/-- C2 (amended): the kernel interception programs are loaded and attached
once per traffic-shaping lifecycle — inside `run_client`, before that
lifecycle's connect attempt — not once per process; a run of n such
lifecycles performs n loads. -/
theorem ebpf_load_attach_per_lifecycle (env : Env) (send_data : Bool)
    (cg cfg : String) (h : env.prefixOk = true) :
    (∃ post, (run_client env true send_data cg cfg).1 =
        preConnectEvents env cg cfg ++ Event.connectAttempt :: post ∧
      countLoads post = 0) ∧
    countLoads (preConnectEvents env cg cfg) = 1 ∧
    ∀ n, countLoads (run_traces (fun _ => env) true send_data cg cfg n) = n := by
  have hmain := run_client_shaping_eq env send_data cg cfg h
  obtain ⟨post, hpost, hcount⟩ := handle_stream_result_trace env send_data
    (preConnectEvents env cg cfg ++ [Event.connectAttempt])
  have htrace : (run_client env true send_data cg cfg).1 =
      preConnectEvents env cg cfg ++ Event.connectAttempt :: post := by
    rw [hmain, hpost, List.append_assoc]
    rfl
  have hone : countLoads (run_client env true send_data cg cfg).1 = 1 := by
    rw [htrace, countLoads_append]
    have h2 : countLoads (Event.connectAttempt :: post) = countLoads post := by
      simp [countLoads, List.countP_cons, Event.isLoadArtifacts]
    rw [h2, hcount, countLoads_preConnect]
  refine ⟨⟨post, htrace, hcount⟩, countLoads_preConnect env cg cfg, ?_⟩
  intro n
  induction n with
  | zero => simp [run_traces, countLoads]
  | succ n ih =>
    show countLoads (run_traces (fun _ => env) true send_data cg cfg n ++
      (run_client env true send_data cg cfg).1) = n + 1
    rw [countLoads_append, ih, hone]

/-- Witness for the amended C2 at a concrete all-success environment. -/
theorem ebpf_load_attach_per_lifecycle_witness :
    allOkEnv.prefixOk = true ∧
    ((∃ post, (run_client allOkEnv true false testCgroupPath testConfigPath).1 =
        preConnectEvents allOkEnv testCgroupPath testConfigPath ++
          Event.connectAttempt :: post ∧
      countLoads post = 0) ∧
    countLoads (preConnectEvents allOkEnv testCgroupPath testConfigPath) = 1 ∧
    ∀ n, countLoads (run_traces (fun _ => allOkEnv) true false testCgroupPath
      testConfigPath n) = n) :=
  ⟨by decide, ebpf_load_attach_per_lifecycle allOkEnv false testCgroupPath
    testConfigPath (by decide)⟩

/-- C5: a connect failure is caught and logged inside the lifecycle
(`run_client` returns normally, ending with the logged error, instead of
panicking or propagating), and the generator loop — whose spawning never
consults lifecycle outcomes — spawns one lifecycle on every tick. -/
theorem connect_failure_isolated (env : Env) (shaping send_data : Bool)
    (cg cfg : String) (rate n : Nat) (hp : env.prefixOk = true)
    (hc : env.connectOk = false) (hr : 0 < rate) :
    (run_client env shaping send_data cg cfg).2 = false ∧
    (run_client env shaping send_data cg cfg).1.getLast? =
      some Event.logConnectError ∧
    (start_client_at_rate rate n).spawnCount = n := by
  have hspawn : (start_client_at_rate rate n).spawnCount = n := by
    unfold start_client_at_rate
    rw [if_neg (Nat.pos_iff_ne_zero.mp hr)]
    simp [GenResult.spawnCount, gen_run_spawned]
  cases shaping with
  | true =>
    rw [run_client_shaping_eq env send_data cg cfg hp,
      handle_stream_err_trace env send_data _ hc]
    exact ⟨rfl, List.getLast?_concat _, hspawn⟩
  | false =>
    have hns : env.clientNsOk = true := by
      unfold Env.prefixOk at hp
      simp only [Bool.and_eq_true] at hp
      exact hp.1.1.1
    rw [run_client_plain_eq env send_data cg cfg hns,
      handle_stream_err_trace env send_data _ hc]
    exact ⟨rfl, List.getLast?_concat _, hspawn⟩

/-- Witness for C5: a failing connect in an otherwise healthy lifecycle and a
generator observed for five ticks at rate two. -/
theorem connect_failure_isolated_witness :
    connectFailEnv.prefixOk = true ∧ connectFailEnv.connectOk = false ∧
    0 < 2 ∧
    ((run_client connectFailEnv true true testCgroupPath testConfigPath).2 =
      false ∧
    (run_client connectFailEnv true true testCgroupPath
      testConfigPath).1.getLast? = some Event.logConnectError ∧
    (start_client_at_rate 2 5).spawnCount = 5) :=
  ⟨by decide, by decide, by decide,
   connect_failure_isolated connectFailEnv true true testCgroupPath
     testConfigPath 2 5 (by decide) (by decide) (by decide)⟩

/-- C6: for every rate at least one, the generator's fixed inter-spawn
interval is exactly `1_000_000 / rate` microseconds under truncating natural
division, and no correction is applied when the rate does not divide one
second (the spawned product stays strictly below one second). -/
theorem inter_spawn_interval (rate n : Nat) (h : 0 < rate) :
    start_client_at_rate rate n =
      GenResult.running (1000000 / rate) (gen_run rate n) ∧
    rate * (1000000 / rate) + 1000000 % rate = 1000000 ∧
    (¬ rate ∣ 1000000 → rate * (1000000 / rate) < 1000000) := by
  refine ⟨?_, Nat.div_add_mod 1000000 rate, ?_⟩
  · unfold start_client_at_rate
    rw [if_neg (Nat.pos_iff_ne_zero.mp h)]
  · intro hnd
    have hm : 1000000 % rate ≠ 0 := fun hz =>
      hnd (Nat.dvd_iff_mod_eq_zero.mpr hz)
    have hd := Nat.div_add_mod 1000000 rate
    calc rate * (1000000 / rate)
        < rate * (1000000 / rate) + 1000000 % rate :=
          Nat.lt_add_of_pos_right (Nat.pos_of_ne_zero hm)
      _ = 1000000 := hd

/-- Witness for C6 at rate three (which does not divide one second). -/
theorem inter_spawn_interval_witness :
    0 < 3 ∧
    (start_client_at_rate 3 0 =
      GenResult.running (1000000 / 3) (gen_run 3 0) ∧
    3 * (1000000 / 3) + 1000000 % 3 = 1000000 ∧
    (¬ (3 : Nat) ∣ 1000000 → 3 * (1000000 / 3) < 1000000)) :=
  ⟨by decide, inter_spawn_interval 3 0 (by decide)⟩

/-- C7: for every rate at least one, after n spawns the counter holds
`n % rate` (it increments per spawn and resets exactly on reaching the rate)
and exactly `n / rate` milestones have been reported. -/
theorem milestone_count (rate n : Nat) (h : 0 < rate) :
    gen_run rate n =
      { num_spawned := n % rate, spawned := n, milestones := n / rate } ∧
    ∃ s, start_client_at_rate rate n = GenResult.running (1000000 / rate) s ∧
      s.milestones = n / rate ∧ s.spawned = n := by
  refine ⟨gen_run_closed rate h n, gen_run rate n, ?_, ?_, gen_run_spawned rate n⟩
  · unfold start_client_at_rate
    rw [if_neg (Nat.pos_iff_ne_zero.mp h)]
  · rw [gen_run_closed rate h n]

/-- Witness for C7 after seven spawns at rate three. -/
theorem milestone_count_witness :
    0 < 3 ∧
    (gen_run 3 7 =
      { num_spawned := 7 % 3, spawned := 7, milestones := 7 / 3 } ∧
    ∃ s, start_client_at_rate 3 7 = GenResult.running (1000000 / 3) s ∧
      s.milestones = 7 / 3 ∧ s.spawned = 7) :=
  ⟨by decide, milestone_count 3 7 (by decide)⟩

/-- C8 counterexample: with a malformed flow-configuration file the process
does not fail at startup: the generator — which never reads the file —
spawns two lifecycles, and the failure is a panic inside each traffic-shaping
lifecycle, after that lifecycle has already loaded and attached the eBPF
programs and before any connect attempt. -/
theorem config_failure_not_at_startup_counterexample :
    (start_client_at_rate 1 2).spawnCount = 2 ∧
    (run_client badConfigEnv true false testCgroupPath testConfigPath).2 =
      true ∧
    (run_client badConfigEnv true false testCgroupPath
      testConfigPath).1.getLast? = some (Event.readConfig testConfigPath) ∧
    Event.loadArtifacts ∈
      (run_client badConfigEnv true false testCgroupPath testConfigPath).1 ∧
    Event.connectAttempt ∉
      (run_client badConfigEnv true false testCgroupPath testConfigPath).1 := by
  decide

/-- C8 (amended): an unreadable or malformed flow-configuration file is not
detected at startup; the file is read inside each traffic-shaping lifecycle —
after that lifecycle's eBPF setup and before its connect attempt — where the
parse failure panics and aborts only that lifecycle's task, while the
generator loop keeps spawning lifecycles. -/
theorem config_failure_inside_lifecycle (env : Env) (send_data : Bool)
    (cg cfg : String) (rate n : Nat) (h1 : env.clientNsOk = true)
    (h2 : env.setupOk = true) (h3 : env.mapOk = true)
    (h4 : env.configOk = false) (hr : 0 < rate) :
    run_client env true send_data cg cfg = (preConnectEvents env cg cfg, true) ∧
    (preConnectEvents env cg cfg).getLast? = some (Event.readConfig cfg) ∧
    Event.connectAttempt ∉ preConnectEvents env cg cfg ∧
    (start_client_at_rate rate n).spawnCount = n := by
  refine ⟨?_, ?_, ?_, ?_⟩
  · simp [run_client, setup_ebpf_ok_trace env cg h2, get_config_from_file,
      h1, h3, h4, preConnectEvents]
  · show ((Event.getNamespace CLIENT_NAMESPACE :: setupTrace env cg ++
      [Event.getMap]) ++ [Event.readConfig cfg]).getLast? =
        some (Event.readConfig cfg)
    exact List.getLast?_concat _
  · simp [preConnectEvents, setupTrace]
  · unfold start_client_at_rate
    rw [if_neg (Nat.pos_iff_ne_zero.mp hr)]
    simp [GenResult.spawnCount, gen_run_spawned]

/-- Witness for the amended C8 at a concrete bad-configuration environment. -/
theorem config_failure_inside_lifecycle_witness :
    badConfigEnv.clientNsOk = true ∧ badConfigEnv.setupOk = true ∧
    badConfigEnv.mapOk = true ∧ badConfigEnv.configOk = false ∧ 0 < 3 ∧
    (run_client badConfigEnv true true testCgroupPath testConfigPath =
      (preConnectEvents badConfigEnv testCgroupPath testConfigPath, true) ∧
    (preConnectEvents badConfigEnv testCgroupPath testConfigPath).getLast? =
      some (Event.readConfig testConfigPath) ∧
    Event.connectAttempt ∉
      preConnectEvents badConfigEnv testCgroupPath testConfigPath ∧
    (start_client_at_rate 3 4).spawnCount = 4) :=
  ⟨by decide, by decide, by decide, by decide, by decide,
   config_failure_inside_lifecycle badConfigEnv true testCgroupPath
     testConfigPath 3 4 (by decide) (by decide) (by decide) (by decide)
     (by decide)⟩

/-- C9 counterexample: with concrete random draws, every write of
`send_random_data` transmits 2048 bytes — `write_all` sends the whole
buffer — and 2048 is not a size drawn from the half-open range 200..2048. -/
theorem send_full_buffer_counterexample :
    ((send_random_data 0 (fun _ => 0)).head?).map PacketSend.written =
      some 2048 ∧
    (send_random_data 0 (fun _ => 0)).all
      (fun p => p.written == 2048) = true ∧
    ¬ (2048 < 2048) := by
  decide

/-- C9 (amended): when data exchange is enabled, a successful lifecycle sends
a random number of packets drawn from 50..150; each iteration draws a random
length in 200..2048 which sets the freshly randomized buffer portion and the
response-read length, but every write transmits the full 2048-byte buffer; a
fixed 10 ms delay follows each packet, and the lifecycle then gracefully
shuts the connection down. -/
theorem send_random_data_behavior (rngPackets : Nat) (rngLen : Nat → Nat)
    (env : Env) (shaping : Bool) (cg cfg : String)
    (hp : env.prefixOk = true) (hc : env.connectOk = true)
    (hs : env.shutdownOk = true) :
    50 ≤ (send_random_data rngPackets rngLen).length ∧
    (send_random_data rngPackets rngLen).length < 150 ∧
    (send_random_data rngPackets rngLen).all
      (fun p => p.written == DATA_LEN && decide (200 ≤ p.len) &&
        decide (p.len < 2048) && p.delay_ms == 10) = true ∧
    (run_client env shaping true cg cfg).1.getLast? =
      some Event.shutdownStream ∧
    Event.sendData ∈ (run_client env shaping true cg cfg).1 := by
  have hns : env.clientNsOk = true := by
    unfold Env.prefixOk at hp
    simp only [Bool.and_eq_true] at hp
    exact hp.1.1.1
  have htr : ∃ base, (run_client env shaping true cg cfg).1 =
      base ++ [Event.sendData, Event.shutdownStream] := by
    cases shaping with
    | true =>
      exact ⟨_, by rw [run_client_shaping_eq env true cg cfg hp,
        handle_stream_ok_trace env _ hc hs]⟩
    | false =>
      exact ⟨_, by rw [run_client_plain_eq env true cg cfg hns,
        handle_stream_ok_trace env _ hc hs]⟩
  obtain ⟨base, htr⟩ := htr
  have hlen : (send_random_data rngPackets rngLen).length =
      50 + rngPackets % 100 := by
    simp [send_random_data, random_range]
  refine ⟨?_, ?_, ?_, ?_, ?_⟩
  · rw [hlen]
    omega
  · rw [hlen]
    omega
  · rw [List.all_eq_true]
    intro p hp2
    simp only [send_random_data, List.mem_map, List.mem_range] at hp2
    obtain ⟨i, hi, rfl⟩ := hp2
    simp only [random_range, DATA_LEN, Bool.and_eq_true, beq_iff_eq,
      decide_eq_true_eq]
    refine ⟨⟨⟨?_, Nat.le_add_right _ _⟩, ?_⟩, ?_⟩ <;> first | trivial | omega
  · rw [htr]
    exact getLast_append_pair _ _ _
  · rw [htr]
    simp

/-- Witness for the amended C9 at concrete random draws and environment. -/
theorem send_random_data_behavior_witness :
    allOkEnv.prefixOk = true ∧ allOkEnv.connectOk = true ∧
    allOkEnv.shutdownOk = true ∧
    (50 ≤ (send_random_data 3 (fun _ => 5)).length ∧
    (send_random_data 3 (fun _ => 5)).length < 150 ∧
    (send_random_data 3 (fun _ => 5)).all
      (fun p => p.written == DATA_LEN && decide (200 ≤ p.len) &&
        decide (p.len < 2048) && p.delay_ms == 10) = true ∧
    (run_client allOkEnv true true testCgroupPath testConfigPath).1.getLast? =
      some Event.shutdownStream ∧
    Event.sendData ∈ (run_client allOkEnv true true testCgroupPath
      testConfigPath).1) :=
  ⟨by decide, by decide, by decide,
   send_random_data_behavior 3 (fun _ => 5) allOkEnv true testCgroupPath
     testConfigPath (by decide) (by decide) (by decide)⟩

/-- C10: with rate zero, `start_client_at_rate` panics immediately in the
interval computation `1_000_000 / rate` (unguarded integer division by zero)
before any lifecycle is spawned; for every positive rate that division-error
branch is unreachable. -/
theorem rate_zero_division_panic (n : Nat) :
    (start_client_at_rate 0 n = GenResult.divPanic ∧
      (start_client_at_rate 0 n).spawnCount = 0) ∧
    ∀ rate, 0 < rate →
      ∃ s, start_client_at_rate rate n =
        GenResult.running (1000000 / rate) s := by
  refine ⟨⟨rfl, rfl⟩, ?_⟩
  intro rate hr
  refine ⟨gen_run rate n, ?_⟩
  unfold start_client_at_rate
  rw [if_neg (Nat.pos_iff_ne_zero.mp hr)]

/-- Witness for C10 observed over four ticks, with positive rate seven. -/
theorem rate_zero_division_panic_witness :
    (start_client_at_rate 0 4 = GenResult.divPanic ∧
      (start_client_at_rate 0 4).spawnCount = 0) ∧
    (0 < 7 ∧ ∃ s, start_client_at_rate 7 4 =
      GenResult.running (1000000 / 7) s) :=
  ⟨(rate_zero_division_panic 4).1,
   ⟨by decide, (rate_zero_division_panic 4).2 7 (by decide)⟩⟩
